import Mathlib

/-
  Shallow embedding of the repository Highdrien/analyse_trace_sang
  (image-classification pipeline): src/metrics.py, src/dataloader/dataloader.py
  and src/infer.py, together with theorems checking the specification's claims.

  Tensors are modelled as lists: a batch of prediction scores of shape
  (B, num_classes) is a `List (List ℚ)`, a batch of class labels of shape (B,)
  is a `List ℤ`.  External library kernels (the torchmetrics reducers, the
  image decoding/transform pipeline, Python's float formatting) are abstracted
  as function parameters; everything the repository itself computes is
  embedded from the source.
-/

namespace AnalyseTraceSang

/-- Python exceptions raised by the embedded code, by kind. -/
inductive PyError where
  | valueError (msg : String)
  | fileNotFoundError (msg : String)
  | indexError (msg : String)
  deriving DecidableEq

/-- Reduction of the Except monad's bind on a success value. -/
theorem ok_bind {ε α β : Type} (a : α) (f : α → Except ε β) :
    (Except.ok a >>= f) = f a := rfl

/-- Reduction of the Except monad's bind on a raised error: the error
propagates, the continuation never runs. -/
theorem error_bind {ε α β : Type} (e : ε) (f : α → Except ε β) :
    ((Except.error e : Except ε α) >>= f) = Except.error e := rfl

instance {ε α : Type} [DecidableEq ε] [DecidableEq α] :
    DecidableEq (Except ε α) := fun x y =>
  match x, y with
  | .error e, .error f =>
    if h : e = f then .isTrue (congrArg Except.error h)
    else .isFalse (fun hh => h (Except.error.inj hh))
  | .ok a, .ok b =>
    if h : a = b then .isTrue (congrArg Except.ok h)
    else .isFalse (fun hh => h (Except.ok.inj hh))
  | .error _, .ok _ => .isFalse (fun hh => Except.noConfusion hh)
  | .ok _, .error _ => .isFalse (fun hh => Except.noConfusion hh)

/-! ## src/metrics.py -/

/-- Embedding of `torch.argmax` on a 1-D tensor: index of the first maximal
entry (0 on the empty list, which torch rejects; no claim touches that case). -/
def argmaxIdx (l : List ℚ) : Nat :=
  (l.foldl
    (fun (st : Nat × Nat × Option ℚ) v =>
      match st with
      | (i, _, none) => (i + 1, i, some v)
      | (i, best, some bv) =>
          if bv < v then (i + 1, i, some v) else (i + 1, best, some bv))
    (0, 0, none)).2.1

/-- Embedding of the class `Accuracy_per_class` of src/metrics.py. -/
structure Accuracy_per_class where
  num_classes : Nat

/-- Embedding of `Accuracy_per_class.__call__` as used by `Metrics.compute`:
both arguments are 1-D label tensors of the same batch length (`y_pred` has
already been reduced by argmax).  For each class `label`,
`correct = (y_pred[y_true == label] == label).sum()` counts the positions where
both tensors equal `label`, `total = (y_true == label).sum()` counts the true
occurrences, and the appended value is `correct / total` guarded by
`if total > 0 else 0`: the division is only evaluated when `total > 0`. -/
def Accuracy_per_class.call (a : Accuracy_per_class) (y_pred y_true : List ℤ) :
    List ℚ :=
  (List.range a.num_classes).map (fun (label : Nat) =>
    let correct : Nat :=
      ((y_pred.zip y_true).filter
        (fun p => p.2 == (label : ℤ) && p.1 == (label : ℤ))).length
    let total : Nat := y_true.count ((label : Nat) : ℤ)
    if 0 < total then (correct : ℚ) / (total : ℚ) else 0)

/-- Embedding of `Accuracy_per_class.get_metrics_name`. -/
def Accuracy_per_class.get_metrics_name (a : Accuracy_per_class) : List String :=
  (List.range a.num_classes).map (fun i => "acc class n°" ++ toString (i + 1))

/-- Abstract interface to the external torchmetrics reducers instantiated in
`Metrics.__init__`: `Accuracy`, `Precision`, `Recall`, `F1Score` with micro or
macro averaging.  The five scalar reducers consume 1-D predicted-label and
true-label tensors; the two top-k reducers consume the raw 2-D score tensor
and the true labels.  Their numeric kernels live outside this repository. -/
structure TorchMetrics where
  accMicro : List ℤ → List ℤ → ℚ
  accMacro : List ℤ → List ℤ → ℚ
  precisionMacro : List ℤ → List ℤ → ℚ
  recallMacro : List ℤ → List ℤ → ℚ
  f1Macro : List ℤ → List ℤ → ℚ
  topkMicro : List (List ℚ) → List ℤ → ℚ
  topkMacro : List (List ℚ) → List ℤ → ℚ

/-- State built by `Metrics.__init__` of src/metrics.py.  The two Python dicts
`self.metrics` and `self.metrics_onehot` preserve insertion order, so they are
embedded as ordered association lists. -/
structure Metrics where
  num_classes : Nat
  run_argmax_on_y_true : Bool
  run_acc_per_class : Bool
  metrics : List (String × (List ℤ → List ℤ → ℚ))
  metrics_onehot : List (String × (List (List ℚ) → List ℤ → ℚ))
  metrics_per_class : Option Accuracy_per_class
  num_metrics : Nat
  metrics_name : List String

/-- Embedding of `Metrics.__init__` (src/metrics.py lines 34-59), parametrised
by the external torchmetrics kernels `tm`. -/
def Metrics.init (tm : TorchMetrics) (num_classes : Nat)
    (run_argmax_on_y_true : Bool) (run_acc_per_class : Bool) : Metrics :=
  let metrics : List (String × (List ℤ → List ℤ → ℚ)) :=
    [("acc micro", tm.accMicro),
     ("acc macro", tm.accMacro),
     ("precission macro", tm.precisionMacro),
     ("recall macro", tm.recallMacro),
     ("f1-score macro", tm.f1Macro)]
  let metrics_onehot : List (String × (List (List ℚ) → List ℤ → ℚ)) :=
    [("top k micro", tm.topkMicro),
     ("top k macro", tm.topkMacro)]
  if run_acc_per_class then
    let apc : Accuracy_per_class := ⟨num_classes⟩
    { num_classes := num_classes
      run_argmax_on_y_true := run_argmax_on_y_true
      run_acc_per_class := run_acc_per_class
      metrics := metrics
      metrics_onehot := metrics_onehot
      metrics_per_class := some apc
      num_metrics := metrics_onehot.length + metrics.length + num_classes
      metrics_name := metrics_onehot.map Prod.fst ++ metrics.map Prod.fst
        ++ apc.get_metrics_name }
  else
    { num_classes := num_classes
      run_argmax_on_y_true := run_argmax_on_y_true
      run_acc_per_class := run_acc_per_class
      metrics := metrics
      metrics_onehot := metrics_onehot
      metrics_per_class := none
      num_metrics := metrics_onehot.length + metrics.length
      metrics_name := metrics_onehot.map Prod.fst ++ metrics.map Prod.fst }

/-- The `y_true` argument of `Metrics.compute`: either a 1-D tensor of class
indices or a 2-D one-hot/score tensor to be reduced by argmax. -/
inductive TrueTensor where
  | indices (l : List ℤ)
  | onehot (m : List (List ℚ))

/-- Embedding of `Metrics.compute` (src/metrics.py lines 61-84).  When
`run_argmax_on_y_true` is set, `torch.argmax(y_true, dim=-1)` reduces a 2-D
`y_true` row-wise; a batch whose `y_true` shape does not match the flag is not
well-shaped and is modelled as an error.  Then the loop over `metrics_onehot`
appends one value per top-k reducer (on the raw scores), `y_pred` is reduced by
argmax, the loop over `metrics` appends one value per scalar reducer, and
finally the per-class accuracies are appended when `run_acc_per_class`. -/
def Metrics.compute (m : Metrics) (y_pred : List (List ℚ)) (y_true : TrueTensor) :
    Except PyError (List ℚ) := do
  let yt : List ℤ ←
    if m.run_argmax_on_y_true then
      match y_true with
      | .onehot mat => Except.ok (mat.map (fun r => (argmaxIdx r : ℤ)))
      | .indices _ =>
          Except.error (.valueError "run_argmax_on_y_true expects a 2-D y_true")
    else
      match y_true with
      | .indices l => Except.ok l
      | .onehot _ =>
          Except.error (.valueError "expected a 1-D y_true of class indices")
  let onehotVals := m.metrics_onehot.map (fun p => p.2 y_pred yt)
  let yp : List ℤ := y_pred.map (fun r => (argmaxIdx r : ℤ))
  let scalarVals := m.metrics.map (fun p => p.2 yp yt)
  let perClassVals ←
    if m.run_acc_per_class then
      match m.metrics_per_class with
      | some apc => Except.ok (apc.call yp yt)
      | none => Except.error (.valueError "metrics_per_class is not set")
    else Except.ok []
  Except.ok (onehotVals ++ scalarVals ++ perClassVals)

/-- Embedding of `Metrics.get_names`. -/
def Metrics.get_names (m : Metrics) : List String :=
  m.metrics_name

/-- Embedding of `Metrics.init_metrics`: `np.zeros(self.num_metrics)`. -/
def Metrics.init_metrics (m : Metrics) : List ℚ :=
  List.replicate m.num_metrics 0

/-! ## Claims about src/metrics.py -/

/-- Concrete torchmetrics instantiation used by witnesses: every external
reducer returns 0 (the claims proved here do not depend on kernel values). -/
def tmZero : TorchMetrics :=
  ⟨fun _ _ => 0, fun _ _ => 0, fun _ _ => 0, fun _ _ => 0, fun _ _ => 0,
   fun _ _ => 0, fun _ _ => 0⟩

/-- C1: for every Metrics configuration (any class count, with or without
per-class accuracy), `get_names()`, `init_metrics()` and any vector returned by
`compute` on a well-shaped batch all have length `num_metrics`, which equals
the 2 registered top-k reducers plus the 5 scalar reducers plus `num_classes`
per-class entries when enabled. -/
theorem metrics_lengths_agree (tm : TorchMetrics) (nc : Nat) (ram rapc : Bool)
    (y_pred : List (List ℚ)) (y_true : TrueTensor) (v : List ℚ)
    (h : (Metrics.init tm nc ram rapc).compute y_pred y_true = .ok v) :
    v.length = (Metrics.init tm nc ram rapc).num_metrics ∧
    (Metrics.init tm nc ram rapc).get_names.length
      = (Metrics.init tm nc ram rapc).num_metrics ∧
    (Metrics.init tm nc ram rapc).init_metrics.length
      = (Metrics.init tm nc ram rapc).num_metrics ∧
    (Metrics.init tm nc ram rapc).num_metrics
      = 2 + 5 + (if rapc then nc else 0) := by
  refine ⟨?_, ?_, ?_, ?_⟩
  · cases rapc <;> cases ram <;> cases y_true <;>
      simp [Metrics.init, Metrics.compute, ok_bind, error_bind] at h <;>
      subst h <;>
      simp [Metrics.init, Accuracy_per_class.call] <;>
      omega
  · cases rapc <;>
      simp [Metrics.init, Metrics.get_names,
        Accuracy_per_class.get_metrics_name] <;>
      omega
  · cases rapc <;> simp [Metrics.init, Metrics.init_metrics] <;> omega
  · cases rapc <;> simp [Metrics.init] <;> omega

/-- Witness for C1 at a concrete batch: two classes, per-class accuracy
enabled, `y_true` given as indices. -/
theorem metrics_lengths_agree_witness :
    (Metrics.init tmZero 2 false true).compute [[(0 : ℚ), 1]] (.indices [0])
      = .ok [0, 0, 0, 0, 0, 0, 0, 0, 0] ∧
    (([(0 : ℚ), 0, 0, 0, 0, 0, 0, 0, 0]).length
        = (Metrics.init tmZero 2 false true).num_metrics ∧
      (Metrics.init tmZero 2 false true).get_names.length
        = (Metrics.init tmZero 2 false true).num_metrics ∧
      (Metrics.init tmZero 2 false true).init_metrics.length
        = (Metrics.init tmZero 2 false true).num_metrics ∧
      (Metrics.init tmZero 2 false true).num_metrics
        = 2 + 5 + (if true then 2 else 0)) :=
  ⟨by
    simp [Metrics.init, Metrics.compute, ok_bind, tmZero,
      Accuracy_per_class.call, argmaxIdx]
    norm_num [List.range_succ, List.filter, List.count, List.countP]
    decide,
   metrics_lengths_agree tmZero 2 false true [[(0 : ℚ), 1]] (.indices [0])
     [0, 0, 0, 0, 0, 0, 0, 0, 0]
     (by
       simp [Metrics.init, Metrics.compute, ok_bind, tmZero,
         Accuracy_per_class.call, argmaxIdx]
       norm_num [List.range_succ, List.filter, List.count, List.countP]
       decide)⟩

/-- C2: for every batch and class index `c < num_classes` with zero true
occurrences, the per-class accuracy reducer is total (returns a full
`num_classes`-length list, no division fault) and reports 0 for class `c`;
by definition of `Accuracy_per_class.call` the division `correct / total`
sits under the guard `0 < total`. -/
theorem acc_per_class_zero_count (nc : Nat) (y_pred y_true : List ℤ) (c : Nat)
    (hc : c < nc) (h0 : y_true.count (c : ℤ) = 0) :
    ((Accuracy_per_class.mk nc).call y_pred y_true).length = nc ∧
    ((Accuracy_per_class.mk nc).call y_pred y_true)[c]? = some 0 := by
  constructor
  · simp only [Accuracy_per_class.call, List.length_map, List.length_range]
  · simp only [Accuracy_per_class.call, List.getElem?_map,
      List.getElem?_range, hc, Option.map_some']
    rw [h0]
    simp

/-- Witness for C2: batch `y_pred = [0]`, `y_true = [0]`, class 1 never occurs
in `y_true`, so its per-class accuracy is 0. -/
theorem acc_per_class_zero_count_witness :
    1 < 2 ∧ ([(0 : ℤ)].count (1 : ℤ) = 0) ∧
    (((Accuracy_per_class.mk 2).call [0] [0]).length = 2 ∧
      ((Accuracy_per_class.mk 2).call [0] [0])[1]? = some 0) :=
  ⟨by decide, by decide,
   acc_per_class_zero_count 2 [0] [0] 1 (by decide) (by decide)⟩

/-- C3: `compute` returns its entries in the stable declared order — the two
top-k reducers first (on the raw scores), then the five scalar reducers
('acc micro', 'acc macro', 'precission macro', 'recall macro',
'f1-score macro') on the argmax-reduced predictions, then the per-class
accuracies in class-index order when enabled — and `get_names` lists the names
in exactly the same order. -/
theorem metrics_declared_order (tm : TorchMetrics) (nc : Nat)
    (y_pred mat : List (List ℚ)) :
    (Metrics.init tm nc true true).get_names
      = ["top k micro", "top k macro", "acc micro", "acc macro",
         "precission macro", "recall macro", "f1-score macro"]
        ++ (List.range nc).map (fun i => "acc class n°" ++ toString (i + 1)) ∧
    (Metrics.init tm nc true false).get_names
      = ["top k micro", "top k macro", "acc micro", "acc macro",
         "precission macro", "recall macro", "f1-score macro"] ∧
    (Metrics.init tm nc true true).compute y_pred (.onehot mat)
      = .ok
        ([tm.topkMicro y_pred (mat.map (fun r => (argmaxIdx r : ℤ))),
          tm.topkMacro y_pred (mat.map (fun r => (argmaxIdx r : ℤ))),
          tm.accMicro (y_pred.map (fun r => (argmaxIdx r : ℤ)))
            (mat.map (fun r => (argmaxIdx r : ℤ))),
          tm.accMacro (y_pred.map (fun r => (argmaxIdx r : ℤ)))
            (mat.map (fun r => (argmaxIdx r : ℤ))),
          tm.precisionMacro (y_pred.map (fun r => (argmaxIdx r : ℤ)))
            (mat.map (fun r => (argmaxIdx r : ℤ))),
          tm.recallMacro (y_pred.map (fun r => (argmaxIdx r : ℤ)))
            (mat.map (fun r => (argmaxIdx r : ℤ))),
          tm.f1Macro (y_pred.map (fun r => (argmaxIdx r : ℤ)))
            (mat.map (fun r => (argmaxIdx r : ℤ)))]
         ++ (Accuracy_per_class.mk nc).call
              (y_pred.map (fun r => (argmaxIdx r : ℤ)))
              (mat.map (fun r => (argmaxIdx r : ℤ)))) ∧
    (Metrics.init tm nc true false).compute y_pred (.onehot mat)
      = .ok
        [tm.topkMicro y_pred (mat.map (fun r => (argmaxIdx r : ℤ))),
         tm.topkMacro y_pred (mat.map (fun r => (argmaxIdx r : ℤ))),
         tm.accMicro (y_pred.map (fun r => (argmaxIdx r : ℤ)))
           (mat.map (fun r => (argmaxIdx r : ℤ))),
         tm.accMacro (y_pred.map (fun r => (argmaxIdx r : ℤ)))
           (mat.map (fun r => (argmaxIdx r : ℤ))),
         tm.precisionMacro (y_pred.map (fun r => (argmaxIdx r : ℤ)))
           (mat.map (fun r => (argmaxIdx r : ℤ))),
         tm.recallMacro (y_pred.map (fun r => (argmaxIdx r : ℤ)))
           (mat.map (fun r => (argmaxIdx r : ℤ))),
         tm.f1Macro (y_pred.map (fun r => (argmaxIdx r : ℤ)))
           (mat.map (fun r => (argmaxIdx r : ℤ)))] :=
  ⟨rfl, rfl, rfl, rfl⟩

/-! ## src/dataloader/dataloader.py

The dataset indexer `DataGenerator.__init__` walks a directory tree through
`os.path.exists` and `os.listdir`; the file system is modelled as a pair of
abstract functions over path strings, and `os.path.join` as joining with a
single slash.  The label and background registries `LABELS` and `BACKGROUND`
live in `src/dataloader/labels.py` (module-level constant lists); the scan
uses them generically, so they are parameters here. -/

/-- Abstract file system: `pathExists` models `os.path.exists`, `listdir`
models `os.listdir` (filesystem enumeration order, not sorted). -/
structure FS where
  pathExists : String → Bool
  listdir : String → List String

/-- Embedding of `os.path.join` on two components. -/
def pathJoin (a b : String) : String := a ++ "/" ++ b

/-- A sample record `(file path, label, background-or-none)` as appended to
`self.data`. -/
abbrev SampleRec := String × String × Option String

/-- Embedding of the inner loop of `DataGenerator.__init__` for
`use_background=True`: for each background in the registry, the folder
`{dst_path}/{label}/{background}` must exist (else `FileNotFoundError`), and
each directory entry is appended as `(path, label, background)`. -/
def scanBackgrounds (fs : FS) (dst_path label : String) :
    List String → Except PyError (List SampleRec)
  | [] => Except.ok []
  | background :: rest =>
    let folder := pathJoin (pathJoin dst_path label) background
    if fs.pathExists folder then do
      let tail ← scanBackgrounds fs dst_path label rest
      Except.ok ((fs.listdir folder).map
        (fun image_name => (pathJoin folder image_name, label, some background))
        ++ tail)
    else Except.error (.fileNotFoundError (folder ++ " wasn't found"))

/-- Embedding of one iteration of the label loop of `DataGenerator.__init__`:
with backgrounds enabled it scans the background subfolders, otherwise the
label folder `{dst_path}/{label}` itself must exist and its entries are
appended as `(path, label, None)`. -/
def scanLabel (fs : FS) (backgrounds : List String) (dst_path : String)
    (use_background : Bool) (label : String) :
    Except PyError (List SampleRec) :=
  if use_background then
    scanBackgrounds fs dst_path label backgrounds
  else
    let folder := pathJoin dst_path label
    if fs.pathExists folder then
      Except.ok ((fs.listdir folder).map
        (fun image_name => (pathJoin folder image_name, label, none)))
    else Except.error (.fileNotFoundError (folder ++ " wasn't found"))

/-- Embedding of the label loop of `DataGenerator.__init__`: records are
accumulated label-major; an exception raised at any label aborts the whole
constructor, so no partial sample list escapes. -/
def scanLabels (fs : FS) (backgrounds : List String) (dst_path : String)
    (use_background : Bool) :
    List String → Except PyError (List SampleRec)
  | [] => Except.ok []
  | label :: rest => do
    let head ← scanLabel fs backgrounds dst_path use_background label
    let tail ← scanLabels fs backgrounds dst_path use_background rest
    Except.ok (head ++ tail)

/-- The split directory `{datapath}/{mode}_{image_size}` of
`DataGenerator.__init__`. -/
def dstPath (datapath : String) (mode : String) (image_size : Nat) : String :=
  pathJoin datapath (mode ++ "_" ++ toString image_size)

/-- Embedding of `DataGenerator.__init__` (src/dataloader/dataloader.py lines
18-54): checks the mode, checks that the split directory exists (the source's
message says "wans't found"), then scans every label (and background) folder
into the sample list. -/
def dataGeneratorInit (fs : FS) (labels backgrounds : List String)
    (datapath : String) (image_size : Nat) (mode : String)
    (use_background : Bool) : Except PyError (List SampleRec) :=
  if mode ∈ ["train", "val", "test"] then
    if fs.pathExists (dstPath datapath mode image_size) then
      scanLabels fs backgrounds (dstPath datapath mode image_size)
        use_background labels
    else
      Except.error
        (.fileNotFoundError (dstPath datapath mode image_size ++ " wans't found"))
  else
    Except.error
      (.valueError ("Error, expected mode is train, val, or test but found: "
        ++ mode))

/-- A value stored in the item dict returned by `DataGenerator.__getitem__`:
the transformed image tensor (abstracted to the value the external transform
pipeline produces) or an int64 index tensor. -/
inductive ItemVal where
  | image (v : ℤ)
  | index (n : Nat)
  deriving DecidableEq

/-- Embedding of `DataGenerator.__getitem__` (src/dataloader/dataloader.py
lines 59-90) on one sample record.  `transform` abstracts
`self.transform(Image.open(image_path))`.  The item dict is built in insertion
order: 'image' first, then 'label' after the registry check, then (only when
`use_background`) 'background' after its registry check; `None not in
BACKGROUND` holds for any registry, so a `None` background under
`use_background=True` raises. -/
def getItem (labels backgrounds : List String) (transform : String → ℤ)
    (use_background : Bool) (r : SampleRec) :
    Except PyError (List (String × ItemVal)) :=
  let image_path := r.1
  let label := r.2.1
  let background := r.2.2
  let item0 : List (String × ItemVal) :=
    [("image", .image (transform image_path))]
  if label ∈ labels then
    let item1 := item0 ++ [("label", .index (labels.indexOf label))]
    if use_background then
      match background with
      | some b =>
        if b ∈ backgrounds then
          Except.ok (item1 ++ [("background", .index (backgrounds.indexOf b))])
        else Except.error (.valueError "Expected background in BACKGROUND")
      | none => Except.error (.valueError "Expected background in BACKGROUND")
    else Except.ok item1
  else Except.error (.valueError "Expected label in LABEL")

/-! ### Helper lemmas on the directory scan -/

/-- Every error raised inside the background loop is a FileNotFoundError. -/
theorem scanBackgrounds_error_kind (fs : FS) (dst l : String)
    (bgs : List String) (e : PyError)
    (h : scanBackgrounds fs dst l bgs = .error e) :
    ∃ m, e = PyError.fileNotFoundError m := by
  induction bgs generalizing e with
  | nil => exact Except.noConfusion h
  | cons b0 rest ih =>
    simp only [scanBackgrounds] at h
    by_cases hex : fs.pathExists (pathJoin (pathJoin dst l) b0) = true
    · rw [if_pos hex] at h
      cases hrest : scanBackgrounds fs dst l rest with
      | error e2 =>
        rw [hrest, error_bind] at h
        injection h with h
        exact h ▸ ih e2 hrest
      | ok w =>
        rw [hrest, ok_bind] at h
        exact Except.noConfusion h
    · rw [if_neg hex] at h
      injection h with h
      exact ⟨_, h.symm⟩

/-- If the background loop succeeds, every expected background folder exists. -/
theorem scanBackgrounds_ok_exists (fs : FS) (dst l : String)
    (bgs : List String) (v : List SampleRec)
    (h : scanBackgrounds fs dst l bgs = .ok v) :
    ∀ b ∈ bgs, fs.pathExists (pathJoin (pathJoin dst l) b) = true := by
  induction bgs generalizing v with
  | nil => intro b hb; cases hb
  | cons b0 rest ih =>
    intro b hb
    simp only [scanBackgrounds] at h
    by_cases hex : fs.pathExists (pathJoin (pathJoin dst l) b0) = true
    · rw [if_pos hex] at h
      cases hb with
      | head => exact hex
      | tail _ hb =>
        cases hrest : scanBackgrounds fs dst l rest with
        | error e => rw [hrest, error_bind] at h; exact Except.noConfusion h
        | ok w => exact ih w hrest b hb
    · rw [if_neg hex] at h
      exact Except.noConfusion h

/-- Every error raised while scanning one label is a FileNotFoundError. -/
theorem scanLabel_error_kind (fs : FS) (bgs : List String) (dst : String)
    (ub : Bool) (l : String) (e : PyError)
    (h : scanLabel fs bgs dst ub l = .error e) :
    ∃ m, e = PyError.fileNotFoundError m := by
  cases ub with
  | true => exact scanBackgrounds_error_kind fs dst l bgs e (by simpa [scanLabel] using h)
  | false =>
    simp only [scanLabel, Bool.false_eq_true, if_false] at h
    by_cases hex : fs.pathExists (pathJoin dst l) = true
    · rw [if_pos hex] at h
      exact Except.noConfusion h
    · rw [if_neg hex] at h
      injection h with h
      exact ⟨_, h.symm⟩

/-- A successful scan of one label with `use_background=False` means its label
folder exists. -/
theorem scanLabel_ok_false (fs : FS) (bgs : List String) (dst l : String)
    (w : List SampleRec) (h : scanLabel fs bgs dst false l = .ok w) :
    fs.pathExists (pathJoin dst l) = true := by
  simp only [scanLabel, Bool.false_eq_true, if_false] at h
  by_cases hex : fs.pathExists (pathJoin dst l) = true
  · exact hex
  · rw [if_neg hex] at h
    exact Except.noConfusion h

/-- A successful scan of one label with `use_background=True` means all its
background subfolders exist. -/
theorem scanLabel_ok_true (fs : FS) (bgs : List String) (dst l : String)
    (w : List SampleRec) (h : scanLabel fs bgs dst true l = .ok w) :
    ∀ b ∈ bgs, fs.pathExists (pathJoin (pathJoin dst l) b) = true :=
  scanBackgrounds_ok_exists fs dst l bgs w (by simpa [scanLabel] using h)

/-- If any expected label folder (`use_background=False`) or any expected
background subfolder (`use_background=True`) is missing, the label loop raises
a FileNotFoundError. -/
theorem scanLabels_missing (fs : FS) (bgs : List String) (dst : String)
    (ub : Bool) (labels : List String)
    (hmiss :
      (ub = false ∧ ∃ l ∈ labels, fs.pathExists (pathJoin dst l) = false) ∨
      (ub = true ∧ ∃ l ∈ labels, ∃ b ∈ bgs,
        fs.pathExists (pathJoin (pathJoin dst l) b) = false)) :
    ∃ msg, scanLabels fs bgs dst ub labels
      = .error (.fileNotFoundError msg) := by
  induction labels with
  | nil =>
    rcases hmiss with ⟨_, l, hl, _⟩ | ⟨_, l, hl, _⟩ <;> cases hl
  | cons l0 rest ih =>
    cases hhead : scanLabel fs bgs dst ub l0 with
    | error e =>
      obtain ⟨m, rfl⟩ := scanLabel_error_kind fs bgs dst ub l0 e hhead
      refine ⟨m, ?_⟩
      simp only [scanLabels]
      rw [hhead, error_bind]
    | ok w =>
      have hrest :
          (ub = false ∧ ∃ l ∈ rest, fs.pathExists (pathJoin dst l) = false) ∨
          (ub = true ∧ ∃ l ∈ rest, ∃ b ∈ bgs,
            fs.pathExists (pathJoin (pathJoin dst l) b) = false) := by
        rcases hmiss with ⟨hub, l, hl, hex⟩ | ⟨hub, l, hl, b, hb, hex⟩
        · cases hl with
          | head =>
            subst hub
            rw [scanLabel_ok_false fs bgs dst l0 w hhead] at hex
            exact Bool.noConfusion hex
          | tail _ hl => exact Or.inl ⟨hub, l, hl, hex⟩
        · cases hl with
          | head =>
            subst hub
            rw [scanLabel_ok_true fs bgs dst l0 w hhead b hb] at hex
            exact Bool.noConfusion hex
          | tail _ hl => exact Or.inr ⟨hub, l, hl, b, hb, hex⟩
      obtain ⟨m, hm⟩ := ih hrest
      refine ⟨m, ?_⟩
      simp only [scanLabels]
      rw [hhead, ok_bind, hm, error_bind]

/-- A background loop over existing folders that all enumerate no files
returns the empty sample list. -/
theorem scanBackgrounds_empty (fs : FS) (dst l : String) (bgs : List String)
    (hb : ∀ b ∈ bgs, fs.pathExists (pathJoin (pathJoin dst l) b) = true ∧
      fs.listdir (pathJoin (pathJoin dst l) b) = []) :
    scanBackgrounds fs dst l bgs = .ok [] := by
  induction bgs with
  | nil => rfl
  | cons b0 rest ih =>
    obtain ⟨hex, hld⟩ := hb b0 (List.mem_cons_self b0 rest)
    simp only [scanBackgrounds]
    rw [if_pos hex, ih (fun b hbb => hb b (List.mem_cons_of_mem b0 hbb)),
      ok_bind, hld]
    rfl

/-- A label loop over a complete directory tree with no files returns the
empty sample list. -/
theorem scanLabels_empty (fs : FS) (bgs : List String) (dst : String)
    (ub : Bool) (labels : List String)
    (hfold :
      (ub = false → ∀ l ∈ labels,
        fs.pathExists (pathJoin dst l) = true ∧
        fs.listdir (pathJoin dst l) = []) ∧
      (ub = true → ∀ l ∈ labels, ∀ b ∈ bgs,
        fs.pathExists (pathJoin (pathJoin dst l) b) = true ∧
        fs.listdir (pathJoin (pathJoin dst l) b) = [])) :
    scanLabels fs bgs dst ub labels = .ok [] := by
  induction labels with
  | nil => rfl
  | cons l0 rest ih =>
    have hhead : scanLabel fs bgs dst ub l0 = .ok [] := by
      cases ub with
      | false =>
        obtain ⟨hex, hld⟩ := hfold.1 rfl l0 (List.mem_cons_self l0 rest)
        simp only [scanLabel, Bool.false_eq_true, if_false]
        rw [if_pos hex, hld]
        rfl
      | true =>
        simp only [scanLabel, if_true]
        exact scanBackgrounds_empty fs dst l0 bgs
          (hfold.2 rfl l0 (List.mem_cons_self l0 rest))
    have htail : scanLabels fs bgs dst ub rest = .ok [] := by
      refine ih ⟨fun hub l hl => hfold.1 hub l (List.mem_cons_of_mem l0 hl),
        fun hub l hl => hfold.2 hub l (List.mem_cons_of_mem l0 hl)⟩
    simp only [scanLabels]
    rw [hhead, ok_bind, htail, ok_bind]
    rfl

/-- A record produced by a `use_background=False` scan of one label carries
`None` in its background field. -/
theorem scanLabel_none_background (fs : FS) (bgs : List String)
    (dst l : String) (w : List SampleRec)
    (h : scanLabel fs bgs dst false l = .ok w) :
    ∀ r ∈ w, r.2.2 = none := by
  simp only [scanLabel, Bool.false_eq_true, if_false] at h
  by_cases hex : fs.pathExists (pathJoin dst l) = true
  · rw [if_pos hex] at h
    injection h with h
    subst h
    intro r hr
    simp only [List.mem_map] at hr
    obtain ⟨n, _, rfl⟩ := hr
    rfl
  · rw [if_neg hex] at h
    exact Except.noConfusion h

/-- Every record produced by a `use_background=False` scan carries `None` in
its background field: the field is recorded as `None` at indexing time. -/
theorem scanLabels_none_background (fs : FS) (bgs : List String)
    (dst : String) (ls : List String) (data : List SampleRec)
    (h : scanLabels fs bgs dst false ls = .ok data) :
    ∀ r ∈ data, r.2.2 = none := by
  induction ls generalizing data with
  | nil =>
    injection h with h
    subst h
    intro r hr
    cases hr
  | cons l0 rest ih =>
    simp only [scanLabels] at h
    cases hhead : scanLabel fs bgs dst false l0 with
    | error e => rw [hhead, error_bind] at h; exact Except.noConfusion h
    | ok w =>
      rw [hhead, ok_bind] at h
      cases htail : scanLabels fs bgs dst false rest with
      | error e => rw [htail, error_bind] at h; exact Except.noConfusion h
      | ok t =>
        rw [htail, ok_bind] at h
        injection h with h
        subst h
        intro r hr
        rcases List.mem_append.mp hr with hw | ht
        · exact scanLabel_none_background fs bgs dst l0 w hhead r hw
        · exact ih t htail r ht

/-! ## Claims about src/dataloader/dataloader.py -/

/-- C5: for every root path and valid split, if at least one expected label
folder (with backgrounds disabled) or at least one expected background
subfolder within a label folder (with backgrounds enabled) is absent, the
constructor fails with a missing-directory error (`FileNotFoundError`): no
partial sample list is returned. -/
theorem dataGenerator_missing_folder_fails (fs : FS)
    (labels backgrounds : List String) (datapath : String) (image_size : Nat)
    (mode : String) (use_background : Bool)
    (hmode : mode ∈ ["train", "val", "test"])
    (hmiss :
      (use_background = false ∧ ∃ l ∈ labels,
        fs.pathExists (pathJoin (dstPath datapath mode image_size) l)
          = false) ∨
      (use_background = true ∧ ∃ l ∈ labels, ∃ b ∈ backgrounds,
        fs.pathExists
          (pathJoin (pathJoin (dstPath datapath mode image_size) l) b)
          = false)) :
    ∃ msg, dataGeneratorInit fs labels backgrounds datapath image_size mode
      use_background = .error (.fileNotFoundError msg) := by
  unfold dataGeneratorInit
  rw [if_pos hmode]
  by_cases hdst : fs.pathExists (dstPath datapath mode image_size) = true
  · rw [if_pos hdst]
    exact scanLabels_missing fs backgrounds _ use_background labels hmiss
  · rw [if_neg hdst]
    exact ⟨_, rfl⟩

/-- Concrete file system for the C5 witness: the split directory and the
"cat" label folder exist, the "dog" label folder does not. -/
def fsMissingDog : FS :=
  ⟨fun p => decide (p ∈ (["data/train_256", "data/train_256/cat"] :
      List String)),
   fun _ => []⟩

/-- Witness for C5: with labels ["cat", "dog"] and the "dog" folder absent,
indexing fails with a FileNotFoundError even though "cat" exists. -/
theorem dataGenerator_missing_folder_fails_witness :
    ("train" ∈ ["train", "val", "test"]) ∧
    ((false = false ∧ ∃ l ∈ ["cat", "dog"],
        fsMissingDog.pathExists (pathJoin (dstPath "data" "train" 256) l)
          = false) ∨
      (false = true ∧ ∃ l ∈ ["cat", "dog"], ∃ b ∈ ([] : List String),
        fsMissingDog.pathExists
          (pathJoin (pathJoin (dstPath "data" "train" 256) l) b) = false)) ∧
    (∃ msg, dataGeneratorInit fsMissingDog ["cat", "dog"] [] "data" 256
      "train" false = .error (.fileNotFoundError msg)) :=
  ⟨by decide, by decide,
   dataGenerator_missing_folder_fails fsMissingDog ["cat", "dog"] []
     "data" 256 "train" false (by decide) (by decide)⟩

/-- C9: when the split directory and all expected label folders (and
background subfolders, when enabled) exist but enumerate no files, the
constructor succeeds and the dataset has length 0: a complete-but-empty tree
is not an error. -/
theorem dataGenerator_complete_empty_ok (fs : FS)
    (labels backgrounds : List String) (datapath : String) (image_size : Nat)
    (mode : String) (use_background : Bool)
    (hmode : mode ∈ ["train", "val", "test"])
    (hdst : fs.pathExists (dstPath datapath mode image_size) = true)
    (hfold :
      (use_background = false → ∀ l ∈ labels,
        fs.pathExists (pathJoin (dstPath datapath mode image_size) l) = true ∧
        fs.listdir (pathJoin (dstPath datapath mode image_size) l) = []) ∧
      (use_background = true → ∀ l ∈ labels, ∀ b ∈ backgrounds,
        fs.pathExists
          (pathJoin (pathJoin (dstPath datapath mode image_size) l) b)
          = true ∧
        fs.listdir
          (pathJoin (pathJoin (dstPath datapath mode image_size) l) b)
          = [])) :
    ∃ data, dataGeneratorInit fs labels backgrounds datapath image_size mode
        use_background = .ok data ∧ data.length = 0 := by
  refine ⟨[], ?_, rfl⟩
  unfold dataGeneratorInit
  rw [if_pos hmode, if_pos hdst]
  exact scanLabels_empty fs backgrounds _ use_background labels hfold

/-- Concrete file system for the C9 witness: both label folders exist and are
empty. -/
def fsEmptyTree : FS :=
  ⟨fun p => decide (p ∈ (["data/train_256", "data/train_256/cat",
      "data/train_256/dog"] : List String)),
   fun _ => []⟩

/-- Witness for C9: a complete tree with no image files indexes to the empty
dataset. -/
theorem dataGenerator_complete_empty_ok_witness :
    ("train" ∈ ["train", "val", "test"]) ∧
    fsEmptyTree.pathExists (dstPath "data" "train" 256) = true ∧
    (∃ data, dataGeneratorInit fsEmptyTree ["cat", "dog"] [] "data" 256
      "train" false = .ok data ∧ data.length = 0) :=
  ⟨by decide, by decide,
   dataGenerator_complete_empty_ok fsEmptyTree ["cat", "dog"] [] "data" 256
     "train" false (by decide) (by decide)
     ⟨fun _ l hl => by fin_cases hl <;> exact ⟨by decide, rfl⟩,
      fun hub => Bool.noConfusion hub⟩⟩

/-- Concrete file system for the C4 scenario exactly as the claim gives it:
the tree holds train_256/cat/indoor/a.jpg, train_256/cat/outdoor/b.jpg and
train_256/dog/indoor/c.jpg — and therefore has no dog/outdoor directory. -/
def fsScenario : FS :=
  ⟨fun p => decide (p ∈ (["./train_256", "./train_256/cat",
      "./train_256/cat/indoor", "./train_256/cat/outdoor", "./train_256/dog",
      "./train_256/dog/indoor"] : List String)),
   fun p =>
     if p = "./train_256/cat/indoor" then ["a.jpg"]
     else if p = "./train_256/cat/outdoor" then ["b.jpg"]
     else if p = "./train_256/dog/indoor" then ["c.jpg"]
     else []⟩

/-- C4 counterexample: on the scenario tree the constructor does not produce
3 records — it raises FileNotFoundError for the absent dog/outdoor folder,
because with `use_background=True` every label-background combination must
exist. -/
theorem dataGenerator_scenario_counterexample :
    dataGeneratorInit fsScenario ["cat", "dog"] ["indoor", "outdoor"] "."
      256 "train" true
      = .error (.fileNotFoundError "./train_256/dog/outdoor wasn't found") := by
  decide

/-- The scenario file system completed with an (empty) dog/outdoor folder. -/
def fsScenarioComplete : FS :=
  ⟨fun p => decide (p ∈ (["./train_256", "./train_256/cat",
      "./train_256/cat/indoor", "./train_256/cat/outdoor", "./train_256/dog",
      "./train_256/dog/indoor", "./train_256/dog/outdoor"] : List String)),
   fun p =>
     if p = "./train_256/cat/indoor" then ["a.jpg"]
     else if p = "./train_256/cat/outdoor" then ["b.jpg"]
     else if p = "./train_256/dog/indoor" then ["c.jpg"]
     else []⟩

/-- C4 amended: once every label-background folder exists (dog/outdoor may be
empty), the constructor succeeds on the three scenario files and
`len(dataset) == 3`. -/
theorem dataGenerator_scenario_amended :
    ∃ data, dataGeneratorInit fsScenarioComplete ["cat", "dog"]
      ["indoor", "outdoor"] "." 256 "train" true = .ok data ∧
      data.length = 3 := by
  refine ⟨[("./train_256/cat/indoor/a.jpg", "cat", some "indoor"),
           ("./train_256/cat/outdoor/b.jpg", "cat", some "outdoor"),
           ("./train_256/dog/indoor/c.jpg", "dog", some "indoor")], ?_, rfl⟩
  decide

/-- C10: with `use_background=False` a successful `__getitem__` returns a
dict whose keys are exactly 'image' and 'label' (and every record indexed in
that mode carries `None` as its background, which is omitted from the item);
with `use_background=True` every successfully returned item also has the
'background' key. -/
theorem getItem_keys (labels backgrounds : List String)
    (transform : String → ℤ) (path label : String) (bg : Option String)
    (hl : label ∈ labels) :
    (∃ items, getItem labels backgrounds transform false (path, label, bg)
        = .ok items ∧ items.map Prod.fst = ["image", "label"]) ∧
    (∀ items, getItem labels backgrounds transform true (path, label, bg)
        = .ok items → items.map Prod.fst = ["image", "label", "background"]) ∧
    (∀ (fs : FS) (dst : String) (ls : List String) (data : List SampleRec),
      scanLabels fs backgrounds dst false ls = .ok data →
      ∀ r ∈ data, r.2.2 = none) := by
  refine ⟨?_, ?_, fun fs dst ls data h => scanLabels_none_background
    fs backgrounds dst ls data h⟩
  · refine ⟨[("image", .image (transform path)),
      ("label", .index (labels.indexOf label))], ?_, rfl⟩
    simp [getItem, hl]
  · intro items h
    cases bg with
    | none =>
      simp only [getItem, if_pos hl, if_true] at h
      exact Except.noConfusion h
    | some b =>
      simp only [getItem, if_pos hl, if_true] at h
      by_cases hb : b ∈ backgrounds
      · rw [if_pos hb] at h
        injection h with h
        subst h
        rfl
      · rw [if_neg hb] at h
        exact Except.noConfusion h

/-- Witness for C10 at a concrete record: labels ["cat", "dog"], backgrounds
["indoor", "outdoor"], record ("p.jpg", "cat", some "indoor"). -/
theorem getItem_keys_witness :
    ("cat" ∈ ["cat", "dog"]) ∧
    ((∃ items, getItem ["cat", "dog"] ["indoor", "outdoor"] (fun _ => 0)
        false ("p.jpg", "cat", some "indoor") = .ok items ∧
        items.map Prod.fst = ["image", "label"]) ∧
      (∀ items, getItem ["cat", "dog"] ["indoor", "outdoor"] (fun _ => 0)
        true ("p.jpg", "cat", some "indoor") = .ok items →
        items.map Prod.fst = ["image", "label", "background"]) ∧
      (∀ (fs : FS) (dst : String) (ls : List String) (data : List SampleRec),
        scanLabels fs ["indoor", "outdoor"] dst false ls = .ok data →
        ∀ r ∈ data, r.2.2 = none)) :=
  ⟨by decide,
   getItem_keys ["cat", "dog"] ["indoor", "outdoor"] (fun _ => 0) "p.jpg"
     "cat" (some "indoor") (by decide)⟩

/-! ## src/infer.py -/

/-- Embedding of the input-resolution step at the top of `infer`
(src/infer.py lines 45-50): if `infer_dataloader` is `None` it is built from
`infer_datapath` via `create_infer_dataloader`, and a `ValueError` is raised
when that path is `None` too; when `infer_dataloader` is given, it is used
directly and `infer_datapath` is never consulted.  `α` abstracts the external
DataLoader type and `create_infer_dataloader` the external constructor. -/
def resolveInferSource {α : Type} (infer_dataloader : Option α)
    (infer_datapath : Option String) (create_infer_dataloader : String → α) :
    Except PyError α :=
  match infer_dataloader with
  | some dl => Except.ok dl
  | none =>
    match infer_datapath with
    | some p => Except.ok (create_infer_dataloader p)
    | none =>
      Except.error
        (.valueError "infer_generator and infer_datapath cannot be both None")

/-- One ranked prediction `(class index, class name, confidence)` as produced
by `get_topk_prediction`. -/
abbrev InferTriple := Nat × String × ℚ

/-- Python slicing `s[:-n]` on a string of characters: for `n = 0` Python
reads `s[:-0] = s[:0] = ''`, otherwise the last `n` characters are dropped. -/
def pySliceToNegLast (s : String) (n : Nat) : String :=
  if n = 0 then "" else String.mk (s.data.take (s.data.length - n))

/-- The trimming `line[:-len(sep)]` applied by `save_infer` to the header and
to every data line. -/
def pyTrimSep (s sep : String) : String := pySliceToNegLast s sep.length

/-- Concatenation of a list of strings in order, embedding a Python
`str` accumulated with `+=` over a loop. -/
def strConcat : List String → String
  | [] => ""
  | s :: ss => s ++ strConcat ss

/-- Concatenation of fields where every field is followed by the separator:
the shape of the header and of each data line before trimming. -/
def withSep (sep : String) : List String → String
  | [] => ""
  | f :: fs => f ++ sep ++ withSep sep fs

/-- Fields joined by the separator with no trailing separator: the shape of
each written line after trimming. -/
def joinSep (sep : String) : List String → String
  | [] => ""
  | [f] => f
  | f :: g :: fs => f ++ sep ++ joinSep sep (g :: fs)

/-- Embedding of the header construction of `save_infer` (src/infer.py lines
103-105): `header = f'Image{sep}'` followed by
`header += f'Prediction {j+1}{sep}Confidence {j+1} (en %){sep}'` for
`j in range(k)`. -/
def headerUntrimmed (sep : String) (k : Nat) : String :=
  "Image" ++ sep ++ strConcat ((List.range k).map (fun j =>
    ("Prediction " ++ toString (j + 1)) ++ sep
      ++ ("Confidence " ++ toString (j + 1) ++ " (en %)") ++ sep))

/-- Embedding of one data-line construction of `save_infer` (src/infer.py
lines 112-114): `line = f'{images_paths[i]}{sep}'` then
`line += f'{output[i][j][1]}{sep}{output[i][j][2] * 100:.1f}{sep}'` for
`j in range(k)`.  `fmt1f` abstracts Python's fixed-point float format
`:.1f` (one decimal place); it is applied to the confidence times 100.
Indexing `output[i][j]` for `j < k` requires the row to hold at least `k`
entries, else Python raises IndexError. -/
def dataLine (sep : String) (fmt1f : ℚ → String) (k : Nat)
    (row : List InferTriple) (path : String) : Except PyError String :=
  if k ≤ row.length then
    Except.ok (path ++ sep ++ strConcat ((row.take k).map (fun t =>
      t.2.1 ++ sep ++ fmt1f (t.2.2 * 100) ++ sep)))
  else Except.error (.indexError "list index out of range")

/-- Embedding of the row loop of `save_infer` (`for i in range(len(output))`):
each row is rendered, trimmed with `line[:-len(sep)]` and written; indexing
`images_paths[i]` past the end of the path list raises IndexError. -/
def buildRows (sep : String) (fmt1f : ℚ → String) (k : Nat) :
    List (List InferTriple) → List String → Except PyError (List String)
  | [], _ => Except.ok []
  | row :: rows, path :: paths => do
    let line ← dataLine sep fmt1f k row path
    let rest ← buildRows sep fmt1f k rows paths
    Except.ok (pyTrimSep line sep :: rest)
  | _ :: _, [] => Except.error (.indexError "list index out of range")

/-- Embedding of `save_infer` (src/infer.py lines 84-116), returning the list
of lines written to the file.  `k = len(output[0])` is evaluated before the
file is opened, so an empty `output` raises IndexError without creating any
file; then the trimmed header line and one trimmed line per image are
written. -/
def save_infer (output : List (List InferTriple)) (images_paths : List String)
    (sep : String) (fmt1f : ℚ → String) : Except PyError (List String) :=
  match output with
  | [] => Except.error (.indexError "list index out of range")
  | first :: _ => do
    let rows ← buildRows sep fmt1f first.length output images_paths
    Except.ok (pyTrimSep (headerUntrimmed sep first.length) sep :: rows)

/-- The header fields named by `save_infer`, in order: 'Image', then a
prediction column and a confidence column per rank. -/
def headerFields (k : Nat) : List String :=
  "Image" :: ((List.range k).map (fun j =>
    ["Prediction " ++ toString (j + 1),
     "Confidence " ++ toString (j + 1) ++ " (en %)"])).flatten

/-- The fields of one data row: the image path, then per rank the predicted
class name and the formatted confidence percentage. -/
def rowFields (fmt1f : ℚ → String) (k : Nat) (row : List InferTriple)
    (path : String) : List String :=
  path :: ((row.take k).map (fun t => [t.2.1, fmt1f (t.2.2 * 100)])).flatten

/-! ### String lemmas about the trailing-separator trimming -/

/-- A nonempty string has nonzero character length. -/
theorem length_ne_zero_of_ne_empty (s : String) (h : s ≠ "") :
    s.length ≠ 0 := by
  intro h0
  apply h
  apply String.ext
  have hd : s.data.length = 0 := h0
  simpa using List.eq_nil_of_length_eq_zero hd

/-- Dropping exactly the trailing separator from `a ++ sep` yields `a`. -/
theorem pySlice_append_exact (a sep : String) (hs : sep ≠ "") :
    pySliceToNegLast (a ++ sep) sep.length = a := by
  unfold pySliceToNegLast
  rw [if_neg (length_ne_zero_of_ne_empty sep hs)]
  apply String.ext
  show ((a ++ sep).data.take ((a ++ sep).data.length - sep.length)) = a.data
  rw [String.data_append]
  have hsep : sep.length = sep.data.length := rfl
  rw [hsep, List.length_append, Nat.add_sub_cancel]
  exact List.take_left a.data sep.data

/-- Slicing `[:-n]` distributes over a left factor when the right factor
holds at least `n` characters. -/
theorem pySlice_append_left (a t : String) (n : Nat) (hn : n ≠ 0)
    (hle : n ≤ t.length) :
    pySliceToNegLast (a ++ t) n = a ++ pySliceToNegLast t n := by
  unfold pySliceToNegLast
  rw [if_neg hn, if_neg hn]
  apply String.ext
  show ((a ++ t).data.take ((a ++ t).data.length - n))
    = (a ++ String.mk (t.data.take (t.data.length - n))).data
  rw [String.data_append, String.data_append]
  have ht : t.length = t.data.length := rfl
  rw [ht] at hle
  rw [List.length_append, Nat.add_sub_assoc hle,
    List.take_append_eq_append_take,
    List.take_all_of_le (by omega), Nat.add_sub_cancel_left]

/-- The separator-terminated rendering of a nonempty field list is at least
one separator long. -/
theorem sep_length_le_withSep (sep f : String) (fs : List String) :
    sep.length ≤ (withSep sep (f :: fs)).length := by
  show sep.length ≤ (f ++ sep ++ withSep sep fs).length
  rw [String.length_append, String.length_append]
  omega

/-- Trimming the trailing separator from a separator-terminated field list
yields the separator-joined fields: the code's `line[:-len(sep)]` produces
exactly the `sep`-delimited rendering of the fields. -/
theorem pyTrimSep_withSep (sep : String) (hs : sep ≠ "") :
    ∀ fields : List String, fields ≠ [] →
      pyTrimSep (withSep sep fields) sep = joinSep sep fields := by
  intro fields
  induction fields with
  | nil => intro h; exact absurd rfl h
  | cons f fs ih =>
    intro _
    cases fs with
    | nil =>
      show pySliceToNegLast (f ++ sep ++ withSep sep []) sep.length = f
      rw [String.append_assoc]
      show pySliceToNegLast (f ++ (sep ++ "")) sep.length = f
      rw [String.append_empty]
      exact pySlice_append_exact f sep hs
    | cons g gs =>
      show pySliceToNegLast (f ++ sep ++ withSep sep (g :: gs)) sep.length
        = f ++ sep ++ joinSep sep (g :: gs)
      rw [String.append_assoc, String.append_assoc]
      rw [pySlice_append_left f (sep ++ withSep sep (g :: gs)) sep.length
        (length_ne_zero_of_ne_empty sep hs)
        (by rw [String.length_append]; omega)]
      rw [pySlice_append_left sep (withSep sep (g :: gs)) sep.length
        (length_ne_zero_of_ne_empty sep hs)
        (sep_length_le_withSep sep g gs)]
      have ih2 := ih (List.cons_ne_nil g gs)
      simp only [pyTrimSep] at ih2
      rw [ih2]

/-- The accumulated `{x}{sep}{y}{sep}` pieces of a loop equal the
separator-terminated rendering of the flattened two-field groups. -/
theorem strConcat_pairs {α : Type} (sep : String) (a b : α → String)
    (l : List α) :
    strConcat (l.map (fun x => a x ++ sep ++ b x ++ sep))
      = withSep sep ((l.map (fun x => [a x, b x])).flatten) := by
  induction l with
  | nil => rfl
  | cons x xs ih =>
    simp only [List.map_cons, List.flatten_cons, List.cons_append,
      List.nil_append, strConcat, withSep, String.append_assoc] at ih ⊢
    rw [ih]
    exact congrArg (fun t => a x ++ (sep ++ (b x ++ (sep ++ withSep sep t))))
      (List.nil_append _).symm

/-- The untrimmed header string is the separator-terminated rendering of the
declared header fields. -/
theorem headerUntrimmed_eq_withSep (sep : String) (k : Nat) :
    headerUntrimmed sep k = withSep sep (headerFields k) := by
  show "Image" ++ sep ++ strConcat ((List.range k).map (fun j =>
      ("Prediction " ++ toString (j + 1)) ++ sep
        ++ ("Confidence " ++ toString (j + 1) ++ " (en %)") ++ sep))
    = withSep sep (headerFields k)
  rw [strConcat_pairs sep (fun j => "Prediction " ++ toString (j + 1))
    (fun j => "Confidence " ++ toString (j + 1) ++ " (en %)") (List.range k)]
  rfl

/-- A flattened list of two-field groups has twice as many fields as
groups. -/
theorem flatten_pairs_length {α : Type} (a b : α → String) (l : List α) :
    ((l.map (fun x => [a x, b x])).flatten).length = 2 * l.length := by
  induction l with
  | nil => rfl
  | cons x xs ih =>
    simp only [List.map_cons, List.flatten_cons, List.length_append,
      List.length_cons, ih]
    simp
    omega

/-- A trimmed data line is the separator-joined row fields. -/
theorem dataLine_trim (sep : String) (hs : sep ≠ "") (fmt1f : ℚ → String)
    (k : Nat) (row : List InferTriple) (path : String) :
    pyTrimSep (path ++ sep ++ strConcat ((row.take k).map (fun t =>
      t.2.1 ++ sep ++ fmt1f (t.2.2 * 100) ++ sep))) sep
    = joinSep sep (rowFields fmt1f k row path) := by
  have h1 : path ++ sep ++ strConcat ((row.take k).map (fun t =>
      t.2.1 ++ sep ++ fmt1f (t.2.2 * 100) ++ sep))
      = withSep sep (rowFields fmt1f k row path) := by
    rw [strConcat_pairs sep (fun t => t.2.1) (fun t => fmt1f (t.2.2 * 100))
      (row.take k)]
    rfl
  rw [h1, pyTrimSep_withSep sep hs _ (by simp [rowFields])]

/-- The trimmed header line is the separator-joined header fields. -/
theorem header_trim (sep : String) (hs : sep ≠ "") (k : Nat) :
    pyTrimSep (headerUntrimmed sep k) sep = joinSep sep (headerFields k) := by
  rw [headerUntrimmed_eq_withSep,
    pyTrimSep_withSep sep hs _ (by simp [headerFields])]

/-- When every row holds at least `k` ranked entries and there is a path per
row, the row loop succeeds and renders each (row, path) pair as its
separator-joined fields, in order. -/
theorem buildRows_ok (sep : String) (hs : sep ≠ "") (fmt1f : ℚ → String)
    (k : Nat) (output : List (List InferTriple)) (paths : List String)
    (hk : ∀ row ∈ output, k ≤ row.length)
    (hlen : output.length ≤ paths.length) :
    buildRows sep fmt1f k output paths
      = .ok ((output.zip paths).map
          (fun rp => joinSep sep (rowFields fmt1f k rp.1 rp.2))) := by
  induction output generalizing paths with
  | nil => simp [buildRows]
  | cons row rows ih =>
    cases paths with
    | nil => simp at hlen
    | cons p ps =>
      have hd : dataLine sep fmt1f k row p
          = .ok (p ++ sep ++ strConcat ((row.take k).map (fun t =>
              t.2.1 ++ sep ++ fmt1f (t.2.2 * 100) ++ sep))) := by
        unfold dataLine
        rw [if_pos (hk row (List.mem_cons_self row rows))]
      simp only [buildRows]
      rw [hd, ok_bind,
        ih ps (fun r hr => hk r (List.mem_cons_of_mem row hr))
          (by simpa using hlen),
        ok_bind]
      simp only [List.zip_cons_cons, List.map_cons]
      rw [dataLine_trim sep hs fmt1f k row p]

/-! ## Claims about src/infer.py -/

/-- C6 counterexample: supplying both a pre-built dataloader and a data path
is not a configuration error — the function returns the dataloader untouched
and ignores the path. -/
theorem infer_both_sources_no_error :
    resolveInferSource (some 42) (some "data/images_to_predict") (fun _ => 0)
      = Except.ok 42 := rfl

/-- C6 amended: the inference runner fails with a ValueError exactly when the
pre-built batch source and the raw data path are both None; when a dataloader
is given it is used (the path, even if also given, is ignored rather than
rejected), and when only the path is given the dataloader is built from
it. -/
theorem infer_source_resolution (α : Type) (d : α) (p : Option String)
    (c : String → α) (q : String) :
    resolveInferSource (some d) p c = .ok d ∧
    resolveInferSource none (some q) c = .ok (c q) ∧
    resolveInferSource none none c
      = .error
        (.valueError "infer_generator and infer_datapath cannot be both None") :=
  ⟨rfl, rfl, rfl⟩

/-- C8: on an empty result set `save_infer` raises IndexError while computing
`k = len(output[0])`, before the output file is opened: no file is written. -/
theorem save_infer_empty_fails (images_paths : List String) (sep : String)
    (fmt1f : ℚ → String) :
    save_infer [] images_paths sep fmt1f
      = .error (.indexError "list index out of range") := rfl

/-- C7: for a nonempty result set of `n` images each carrying `k` ranked
triples (one path per image, nonempty separator), the serializer succeeds and
writes exactly 1 header line plus `n` data lines; every line is the
`sep`-join of its fields after exactly one trailing separator is trimmed, the
header has `2k+1` fields, and each data row's `2k+1` fields are the image
path followed by the k (class name, formatted confidence-times-100) pairs. -/
theorem save_infer_format (output : List (List InferTriple))
    (paths : List String) (sep : String) (fmt1f : ℚ → String) (k : Nat)
    (hne : output ≠ []) (hk : ∀ row ∈ output, row.length = k)
    (hlen : paths.length = output.length) (hsep : sep ≠ "") :
    save_infer output paths sep fmt1f
      = .ok (joinSep sep (headerFields k) ::
          (output.zip paths).map
            (fun rp => joinSep sep (rowFields fmt1f k rp.1 rp.2))) ∧
    (joinSep sep (headerFields k) ::
        (output.zip paths).map
          (fun rp => joinSep sep (rowFields fmt1f k rp.1 rp.2))).length
      = 1 + output.length ∧
    (headerFields k).length = 2 * k + 1 ∧
    (∀ rp ∈ output.zip paths,
      (rowFields fmt1f k rp.1 rp.2).length = 2 * k + 1) := by
  refine ⟨?_, ?_, ?_, ?_⟩
  · cases output with
    | nil => exact absurd rfl hne
    | cons first rest =>
      have hfk : first.length = k := hk first (List.mem_cons_self first rest)
      simp only [save_infer]
      rw [hfk,
        buildRows_ok sep hsep fmt1f k (first :: rest) paths
          (fun r hr => Nat.le_of_eq (hk r hr).symm) (Nat.le_of_eq hlen.symm),
        ok_bind, header_trim sep hsep k]
  · simp only [List.length_cons, List.length_map, List.length_zip, hlen]
    omega
  · simp only [headerFields, List.length_cons,
      flatten_pairs_length (fun j => "Prediction " ++ toString (j + 1))
        (fun j => "Confidence " ++ toString (j + 1) ++ " (en %)"),
      List.length_range]
  · intro rp hrp
    have hr : rp.1.length = k := hk rp.1 (List.of_mem_zip hrp).1
    have htake : (rp.1.take k).length = k := by
      rw [List.length_take, hr]
      omega
    simp only [rowFields, List.length_cons,
      flatten_pairs_length (fun t : InferTriple => t.2.1)
        (fun t : InferTriple => fmt1f (t.2.2 * 100)), htake]

/-- Witness for C7: two images with one ranked prediction each, comma
separator, a fixed formatting kernel. -/
theorem save_infer_format_witness :
    (([[((0 : Nat), "cat", (1 : ℚ))], [(1, "dog", (1 / 2 : ℚ))]] :
        List (List InferTriple)) ≠ []) ∧
    (∀ row ∈ ([[((0 : Nat), "cat", (1 : ℚ))], [(1, "dog", (1 / 2 : ℚ))]] :
        List (List InferTriple)), row.length = 1) ∧
    (["a.jpg", "b.jpg"] : List String).length
      = ([[((0 : Nat), "cat", (1 : ℚ))], [(1, "dog", (1 / 2 : ℚ))]] :
        List (List InferTriple)).length ∧
    ("," : String) ≠ "" ∧
    (save_infer [[((0 : Nat), "cat", (1 : ℚ))], [(1, "dog", (1 / 2 : ℚ))]]
        ["a.jpg", "b.jpg"] "," (fun _ => "50.0")
      = .ok (joinSep "," (headerFields 1) ::
          (([[((0 : Nat), "cat", (1 : ℚ))],
            [(1, "dog", (1 / 2 : ℚ))]]).zip ["a.jpg", "b.jpg"]).map
            (fun rp => joinSep "," (rowFields (fun _ => "50.0") 1
              rp.1 rp.2))) ∧
      (joinSep "," (headerFields 1) ::
          (([[((0 : Nat), "cat", (1 : ℚ))],
            [(1, "dog", (1 / 2 : ℚ))]]).zip ["a.jpg", "b.jpg"]).map
            (fun rp => joinSep "," (rowFields (fun _ => "50.0") 1
              rp.1 rp.2))).length
        = 1 + ([[((0 : Nat), "cat", (1 : ℚ))],
            [(1, "dog", (1 / 2 : ℚ))]] : List (List InferTriple)).length ∧
      (headerFields 1).length = 2 * 1 + 1 ∧
      (∀ rp ∈ (([[((0 : Nat), "cat", (1 : ℚ))],
          [(1, "dog", (1 / 2 : ℚ))]]).zip ["a.jpg", "b.jpg"]),
        (rowFields (fun _ => "50.0") 1 rp.1 rp.2).length = 2 * 1 + 1)) :=
  ⟨by decide, by decide, by decide, by decide,
   save_infer_format [[((0 : Nat), "cat", (1 : ℚ))], [(1, "dog", (1 / 2 : ℚ))]]
     ["a.jpg", "b.jpg"] "," (fun _ => "50.0") 1
     (by decide) (by decide) (by decide) (by decide)⟩

end AnalyseTraceSang
